import Mathlib

/-!
Verification development for the smart-display cast manager
(`src/cast-manager.py`).  The Python source is shallowly embedded:

* external effects (ping, catt, nmap, docker, the filesystem, the clock)
  are oracle parameters supplied to each function or to a per-cycle
  environment record;
* one iteration of the `CastManager.run` while-loop is the pure function
  `runCycle`, which also returns the ordered list of external calls
  (`Event`s) the iteration performs, so ordering / frame properties can
  be stated;
* Python strings are `String`, with `in`, `strip`, `lower`, `split`
  re-implemented over `List Char` so everything evaluates in the kernel;
* timestamps are natural numbers of seconds (`datetime.min` becomes `0`;
  in any real trace recorded timestamps never exceed the current time,
  matching truncated subtraction).
-/

namespace SmartDisplay

/-- Characters Python `str.strip()` / `str.split()` treat as whitespace
(the ASCII ones, which are the only ones nmap/catt output contains). -/
def isPySpace (c : Char) : Bool :=
  c = ' ' || c = '\t' || c = '\n' || c = '\r' || c = '\x0b' || c = '\x0c'

/-- Remove leading and trailing characters satisfying `p`
(Python `str.strip(chars)`). -/
def stripChars (p : Char → Bool) (l : List Char) : List Char :=
  ((l.dropWhile p).reverse.dropWhile p).reverse

/-- Python `line.strip()`. -/
def pyStrip (l : List Char) : List Char := stripChars isPySpace l

/-- Prefix test on character lists. -/
def isPrefixChars : List Char → List Char → Bool
  | [], _ => true
  | _ :: _, [] => false
  | a :: as, b :: bs => a = b && isPrefixChars as bs

/-- Python substring containment `needle in hay`. -/
def containsChars (needle : List Char) : List Char → Bool
  | [] => needle.isEmpty
  | c :: rest => isPrefixChars needle (c :: rest) || containsChars needle rest

/-- Python `s.lower()` (ASCII inputs). -/
def lowerChars (l : List Char) : List Char := l.map Char.toLower

/-- Python `s.split('\n')`. -/
def splitLinesChars : List Char → List (List Char)
  | [] => [[]]
  | c :: rest =>
    if c = '\n' then [] :: splitLinesChars rest
    else
      match splitLinesChars rest with
      | [] => [[c]]
      | l :: ls => (c :: l) :: ls

/-- Helper for `splitWsChars`: `cur` is the reversed current token. -/
def splitWsAux : List Char → List Char → List (List Char)
  | [], cur => if cur.isEmpty then [] else [cur.reverse]
  | c :: rest, cur =>
    if isPySpace c then
      if cur.isEmpty then splitWsAux rest []
      else cur.reverse :: splitWsAux rest []
    else splitWsAux rest (c :: cur)

/-- Python `s.split()` with no argument: split on whitespace runs,
dropping empty tokens. -/
def splitWsChars (l : List Char) : List (List Char) := splitWsAux l []

/-!
Address Cache (`load_cached_ip`, lines 52-76).

The persisted JSON file is modelled by `CacheState`:
* `noFile`    — `os.path.exists` is false;
* `malformed` — the file exists but `json.load` raises;
* `data ip lastSeen` — the parsed dict, where
  - `ip : Option String` is `cache_data.get('nest_hub_ip')`
    (`none` for a missing key; Python's truthiness test additionally
    rejects the empty string, modelled explicitly below), and
  - `lastSeen : Option (Option Nat)` is `cache_data.get('last_seen')`:
    `none` for a missing or falsy (empty-string) value, `some none` for
    a present value `datetime.fromisoformat` raises on, and
    `some (some t)` for a value parsing to timestamp `t` (seconds).
Every exception path in the source returns `None`, as does the staleness
branch; `timedelta(hours=24)` is `86400` seconds.
-/

/-- Persisted cache file states, as seen by `load_cached_ip`. -/
inductive CacheState where
  | noFile : CacheState
  | malformed : CacheState
  | data (ip : Option String) (lastSeen : Option (Option Nat)) : CacheState

/-- Embedding of `CastManager.load_cached_ip` (lines 52-76); `now` is
`datetime.now()` in seconds. -/
def load_cached_ip (c : CacheState) (now : Nat) : Option String :=
  match c with
  | .noFile => none
  | .malformed => none
  | .data ip lastSeen =>
    match ip, lastSeen with
    | some i, some t =>
      if i = "" then none
      else
        match t with
        | none => none
        | some seen => if now - seen < 86400 then some i else none
    | _, _ => none

/-!
Display Health Check (`check_cast_status`, lines 373-419).

The `catt -d <ip> info` subprocess result is the oracle `probe`
(`none` = `TimeoutExpired` or any other exception; `some r` = a finished
run with `r.returncode` and `r.stdout`).  `get_local_ip()` is the oracle
`local_ip`.  The source lowercases the stdout before searching for the
*capitalized* literal `"status_text: Application ready"`; the embedding
reproduces that faithfully.
-/

/-- Result of a finished `subprocess.run` call. -/
structure ProbeResult where
  returncode : Nat
  stdout : String

/-- Embedding of `CastManager.check_cast_status` (lines 373-419). -/
def check_cast_status (nest_hub_ip : Option String) (probe : Option ProbeResult)
    (local_ip : Option String) : Bool :=
  match nest_hub_ip with
  | none => false
  | some _ =>
    match probe with
    | none => false
    | some r =>
      if r.returncode ≠ 0 then false
      else
        let info := pyStrip r.stdout.data
        if containsChars ("display_name: DashCast").data info && local_ip.isSome then
          true
        else if containsChars ("status_text: Application ready").data (lowerChars info)
             || containsChars ("app_id: 84912283").data (lowerChars info) then
          true
        else false

/-!
Supervisor loop (`CastManager.run`, lines 453-576).

One iteration of the `while self.running` body is the pure function
`runCycle`.  The mutable fields of the `CastManager` instance that the
loop reads and writes are `ManagerState`; the outcomes of the external
calls the iteration may make are the oracle record `CycleEnv`
(`verify_cached_ip` is a function oracle because it can be invoked on
different addresses).  Each external interaction is logged as an `Event`
in call order, including the `time.sleep` pacing calls, so ordering and
frame claims can be stated over the trace.  The local variable
`last_network_scan` is written but never read and is omitted.
-/

/-- External interactions one loop iteration can perform, in order:
`check_web_server_health`, `check_cast_status`, `load_cached_ip`,
`verify_cached_ip ip` (ping + identity probe), `scan_for_nest_hub`,
`save_cached_ip ip`, `start_web_server`, the `catt ... cast_site` call of
`cast_to_device`, and `time.sleep secs`. -/
inductive Event where
  | checkWeb : Event
  | checkCast : Event
  | loadCache : Event
  | verifyIp (ip : String) : Event
  | scanNet : Event
  | saveCache (ip : String) : Event
  | startServer : Event
  | castAttempt (ip : String) : Event
  | sleep (secs : Nat) : Event
  deriving DecidableEq, Repr

/-- Mutable fields of the `CastManager` instance used by the loop:
`self.nest_hub_ip`, `self.last_cast_time`, `self.last_ip_verification`
(`datetime.min` becomes `0`). -/
structure ManagerState where
  nest_hub_ip : Option String
  last_cast_time : Option Nat
  last_ip_verification : Nat
  deriving DecidableEq, Repr

/-- Oracle outcomes of the external calls available to one iteration:
`now` is `datetime.now()`; `web_server_ok` / `cast_status_ok` the two
health checks; `cached_ip` the `load_cached_ip` result; `verify_ok ip`
the `verify_cached_ip ip` result (ping and Chromecast identity check
both succeeding); `scan_result` the `scan_for_nest_hub` result;
`start_server_ok` the `start_web_server` result; `local_ip` the
`get_local_ip` result inside `cast_to_device`; `cast_ok` whether the
catt cast command exits successfully. -/
structure CycleEnv where
  now : Nat
  web_server_ok : Bool
  cast_status_ok : Bool
  cached_ip : Option String
  verify_ok : String → Bool
  scan_result : Option String
  start_server_ok : Bool
  local_ip : Option String
  cast_ok : Bool

/-- Embedding of `CastManager.cast_to_device` (lines 338-371): returns the
updated state, the boolean result, and the trace of cast commands issued
(empty when a precondition fails before the catt call).  The timestamp
stored on success is the cycle's `now`. -/
def cast_to_device (s : ManagerState) (env : CycleEnv) :
    ManagerState × Bool × List Event :=
  match s.nest_hub_ip with
  | none => (s, false, [])
  | some ip =>
    match env.local_ip with
    | none => (s, false, [])
    | some _ =>
      if env.cast_ok then
        ({ s with last_cast_time := some env.now }, true, [Event.castAttempt ip])
      else (s, false, [Event.castAttempt ip])

/-- Embedding of the issue-handling block of `CastManager.run`
(lines 529-553) together with the iteration-final `time.sleep(30)`
(line 566): start the web server (bailing out to a sleep on failure),
then cast when there has never been a successful cast or the status check
reported an issue.  `cast_status_ok` is the loop-local variable of the
same name. -/
def handle_issues (s : ManagerState) (env : CycleEnv) (cast_status_ok : Bool) :
    ManagerState × List Event :=
  match s.nest_hub_ip with
  | none => (s, [Event.sleep 30])
  | some _ =>
    if !env.start_server_ok then
      (s, [Event.startServer, Event.sleep 30])
    else if s.last_cast_time.isNone || !cast_status_ok then
      let r := cast_to_device s env
      (r.1, Event.startServer :: (r.2.2 ++ [Event.sleep 30]))
    else (s, [Event.startServer, Event.sleep 30])

/-- Embedding of the cache-recovery block of `CastManager.run`
(lines 489-500): when no device IP is held, load the cache and, when it
returns an address, verify it; on success adopt it and stamp
`last_ip_verification`. -/
def try_cached (s : ManagerState) (env : CycleEnv) : ManagerState × List Event :=
  match s.nest_hub_ip with
  | some _ => (s, [])
  | none =>
    match env.cached_ip with
    | none => (s, [Event.loadCache])
    | some cip =>
      if env.verify_ok cip then
        ({ s with nest_hub_ip := some cip, last_ip_verification := env.now },
         [Event.loadCache, Event.verifyIp cip])
      else (s, [Event.loadCache, Event.verifyIp cip])

/-- Embedding of `CastManager.run` lines 489-566: the cache block, the
scan block (lines 502-516) with its no-result `sleep(30); continue`, the
`elif` periodic re-verification (lines 518-526) whose failure branch
`continue`s without sleeping, and the issue handling. -/
def resolve_and_act (s : ManagerState) (env : CycleEnv) (cast_status_ok : Bool) :
    ManagerState × List Event :=
  let rc := try_cached s env
  match rc.1.nest_hub_ip with
  | none =>
    match env.scan_result with
    | none => (rc.1, rc.2 ++ [Event.scanNet, Event.sleep 30])
    | some dip =>
      let s2 : ManagerState :=
        { rc.1 with nest_hub_ip := some dip, last_ip_verification := env.now }
      let hi := handle_issues s2 env cast_status_ok
      (hi.1, rc.2 ++ [Event.scanNet, Event.saveCache dip] ++ hi.2)
  | some ip =>
    if env.now - rc.1.last_ip_verification > 600 then
      if env.verify_ok ip then
        let hi := handle_issues
          { rc.1 with last_ip_verification := env.now } env cast_status_ok
        (hi.1, rc.2 ++ [Event.verifyIp ip] ++ hi.2)
      else
        ({ rc.1 with nest_hub_ip := none }, rc.2 ++ [Event.verifyIp ip])
    else
      let hi := handle_issues rc.1 env cast_status_ok
      (hi.1, rc.2 ++ hi.2)

/-- Embedding of one iteration of the `while self.running` body of
`CastManager.run` (lines 465-572).  The status variables start as `True`
(lines 470-471); when an IP is held both health checks run, and if both
pass the iteration only sleeps (lines 474-482); otherwise the resolution
and action blocks run with the fresh `cast_status_ok` value. -/
def runCycle (s : ManagerState) (env : CycleEnv) : ManagerState × List Event :=
  match s.nest_hub_ip with
  | none => resolve_and_act s env true
  | some _ =>
    if env.web_server_ok && env.cast_status_ok then
      (s, [Event.checkWeb, Event.checkCast, Event.sleep 30])
    else
      let r := resolve_and_act s env env.cast_status_ok
      (r.1, Event.checkWeb :: Event.checkCast :: r.2)

/-- True on the `catt ... cast_site` events. -/
def isCastEvent : Event → Bool
  | .castAttempt _ => true
  | _ => false

/-- True on address-verification (ping + identity probe) events. -/
def isVerifyEvent : Event → Bool
  | .verifyIp _ => true
  | _ => false

/-- True on the action events: endpoint start and cast. -/
def isActionEvent : Event → Bool
  | .startServer => true
  | .castAttempt _ => true
  | _ => false

/-- True on `time.sleep` events. -/
def isSleepEvent : Event → Bool
  | .sleep _ => true
  | _ => false

/-- True on cache-write events. -/
def isSaveEvent : Event → Bool
  | .saveCache _ => true
  | _ => false

/-- Number of cast attempts in a trace. -/
def countCasts (evs : List Event) : Nat := (evs.filter isCastEvent).length

/-- Number of cache writes in a trace. -/
def countSaves (evs : List Event) : Nat := (evs.filter isSaveEvent).length

/-!
Network scan (`scan_for_nest_hub`, lines 144-182, and
`parse_nmap_for_google_devices`, lines 184-219).

The nmap subprocess output is a plain string; the parser is embedded
verbatim.  The device-selection stage of `scan_for_nest_hub` receives the
parsed `google_devices` list and the `check_chromecast_device` oracle.
-/

/-- Python truthiness of the `current_ip` variable (`None` and the empty
string are falsy). -/
def pyTruthy : Option (List Char) → Bool
  | none => false
  | some l => !l.isEmpty

/-- The parenthesis characters removed by `strip('()')`. -/
def isParenChar (c : Char) : Bool := c = '(' || c = ')'

/-- Python `line.split()[-1].strip('()')`, the address extractor applied
to a scan-report line (such lines always have at least one token). -/
def reportIp (line : List Char) : List Char :=
  stripChars isParenChar ((splitWsChars line).getLastD [])

/-- The `'Nmap scan report for' in line` test (line 195). -/
def isReportLine (line : List Char) : Bool :=
  containsChars ("Nmap scan report for").data line

/-- The `'8008/tcp open' in line or '8009/tcp open' in line` test
(line 206). -/
def isPortLine (line : List Char) : Bool :=
  containsChars ("8008/tcp open").data line ||
    containsChars ("8009/tcp open").data line

/-- The `'MAC Address:' in line and 'Google' in line` test (line 210). -/
def isMacGoogleLine (line : List Char) : Bool :=
  containsChars ("MAC Address:").data line && containsChars ("Google").data line

/-- Embedding of the line loop of `parse_nmap_for_google_devices`
(lines 191-216): `cur` is `current_ip`, `ports` is
`has_chromecast_ports`, `goog` is `is_google_device`.  The accumulated
`google_devices` list is produced in append order: a finished device is
flushed when the next scan report starts, and once more after the loop.
The `elif` chain is mirrored literally, including the reset of both
flags on each new report line. -/
def parseNmapLines : List (List Char) → Option (List Char) → Bool → Bool →
    List (List Char)
  | [], cur, ports, goog =>
    if pyTruthy cur && ports && goog then [cur.getD []] else []
  | l :: ls, cur, ports, goog =>
    let line := pyStrip l
    if isReportLine line then
      (if pyTruthy cur && ports && goog then [cur.getD []] else []) ++
        parseNmapLines ls (some (reportIp line)) false false
    else if pyTruthy cur && isPortLine line then
      parseNmapLines ls cur true goog
    else if pyTruthy cur && isMacGoogleLine line then
      parseNmapLines ls cur ports true
    else
      parseNmapLines ls cur ports goog

/-- Embedding of `CastManager.parse_nmap_for_google_devices`
(lines 184-219): split the nmap stdout on newlines and run the line
loop with `current_ip = None` and both flags false. -/
def parse_nmap_for_google_devices (out : String) : List String :=
  (parseNmapLines (splitLinesChars out.data) none false false).map
    fun l => String.mk l

/-- The `for ip in google_devices: if check(ip): return ip` loop of
`scan_for_nest_hub` (lines 166-169), with `check` the
`check_chromecast_device` oracle. -/
def firstVerifiedDevice (check : String → Bool) : List String → Option String
  | [] => none
  | ip :: rest => if check ip then some ip else firstVerifiedDevice check rest

/-- Embedding of the candidate-selection stage of
`CastManager.scan_for_nest_hub` (lines 163-176), given the parsed
`google_devices` list: return the first candidate passing the CATT
identity check, else fall back to the first candidate, and `None` only
when the list is empty. -/
def scan_for_nest_hub (google_devices : List String) (check : String → Bool) :
    Option String :=
  if google_devices.isEmpty then none
  else
    match firstVerifiedDevice check google_devices with
    | some ip => some ip
    | none => google_devices.head?

/-!
Derived predicates used by the loop theorems.
-/

/-- The cache block of a no-address cycle fails to produce an address:
either `load_cached_ip` returned nothing or the returned address failed
verification. -/
def cacheMiss (env : CycleEnv) : Bool :=
  match env.cached_ip with
  | none => true
  | some cip => !env.verify_ok cip

/-- Events emitted by the cache block of a no-address cycle. -/
def cacheEvents (env : CycleEnv) : List Event :=
  match env.cached_ip with
  | none => [Event.loadCache]
  | some cip => [Event.loadCache, Event.verifyIp cip]

/-- The cycle resolved its address from a fresh network scan: it started
with no address, the cache block missed, and the scan succeeded. -/
def scan_resolution (s : ManagerState) (env : CycleEnv) : Bool :=
  s.nest_hub_ip.isNone && cacheMiss env && env.scan_result.isSome

/-- The trace splits into a prefix without endpoint-start / cast actions
followed by a suffix without verification events: every verification in
the cycle happens before every action of the cycle. -/
def verifyBeforeActions (evs : List Event) : Prop :=
  ∃ a b, evs = a ++ b ∧ (∀ e ∈ a, isActionEvent e = false) ∧
    ∀ e ∈ b, isVerifyEvent e = false

/-!
Concrete cycle inputs used by counterexamples and witnesses.
-/

/-- A manager that cast successfully and verified its address 300
seconds ago. -/
def recentVerifiedState : ManagerState :=
  { nest_hub_ip := some "10.0.0.9", last_cast_time := some 100,
    last_ip_verification := 1000 }

/-- A degraded cycle (cast status check fails) 300 seconds after the
last verification; every external call would succeed. -/
def degradedRecentEnv : CycleEnv :=
  { now := 1300, web_server_ok := true, cast_status_ok := false,
    cached_ip := none, verify_ok := fun _ => true, scan_result := none,
    start_server_ok := true, local_ip := some "192.168.1.2", cast_ok := true }

/-- A manager holding an address whose periodic re-verification is due
(`datetime.min` start). -/
def dueState : ManagerState :=
  { nest_hub_ip := some "10.0.0.9", last_cast_time := some 100,
    last_ip_verification := 0 }

/-- A degraded cycle (web check fails) where re-verification is due and
fails. -/
def verifyFailEnv : CycleEnv :=
  { now := 1000, web_server_ok := false, cast_status_ok := true,
    cached_ip := none, verify_ok := fun _ => false, scan_result := none,
    start_server_ok := true, local_ip := some "192.168.1.2", cast_ok := true }

/-- A degraded cycle (cast status check fails) where re-verification is
due and succeeds, the web server starts, and the cast succeeds. -/
def castingEnv : CycleEnv :=
  { now := 1000, web_server_ok := true, cast_status_ok := false,
    cached_ip := none, verify_ok := fun _ => true, scan_result := none,
    start_server_ok := true, local_ip := some "192.168.1.2", cast_ok := true }

/-- A degraded cycle (cast status check fails) where re-verification is
due and succeeds but the web server fails to start. -/
def serverFailEnv : CycleEnv :=
  { now := 1000, web_server_ok := true, cast_status_ok := false,
    cached_ip := none, verify_ok := fun _ => true, scan_result := none,
    start_server_ok := false, local_ip := some "192.168.1.2", cast_ok := true }

/-- The initial manager state (`__init__`, lines 22-30). -/
def initialState : ManagerState :=
  { nest_hub_ip := none, last_cast_time := none, last_ip_verification := 0 }

/-- A first cycle with an empty cache whose network scan discovers a
device. -/
def scanFindsEnv : CycleEnv :=
  { now := 1000, web_server_ok := true, cast_status_ok := true,
    cached_ip := none, verify_ok := fun _ => false,
    scan_result := some "10.0.0.5", start_server_ok := true,
    local_ip := some "192.168.1.2", cast_ok := true }

/-- A first cycle that resolves from a cached address that re-verifies. -/
def cacheHitEnv : CycleEnv :=
  { now := 1000, web_server_ok := true, cast_status_ok := true,
    cached_ip := some "10.0.0.9", verify_ok := fun _ => true,
    scan_result := some "10.0.0.5", start_server_ok := true,
    local_ip := some "192.168.1.2", cast_ok := true }

/-- A healthy cycle: both health checks pass. -/
def healthyEnv : CycleEnv :=
  { now := 1300, web_server_ok := true, cast_status_ok := true,
    cached_ip := none, verify_ok := fun _ => true, scan_result := none,
    start_server_ok := true, local_ip := some "192.168.1.2", cast_ok := true }

/-- An nmap report for one device with an open cast port and a Google
MAC line. -/
def nmapGoogleOut : String :=
  "Starting Nmap\nNmap scan report for 192.168.1.23\n8009/tcp open  ajp13\nMAC Address: 54:60:09:AA:BB:CC (Google)\n"

/-- An nmap report for one device with both cast ports open but no MAC
address line (nmap without privileges cannot report MACs). -/
def nmapNoMacOut : String :=
  "Starting Nmap\nNmap scan report for 192.168.1.23\n8008/tcp open  http\n8009/tcp open  ajp13\n"

end SmartDisplay

namespace SmartDisplay

/-- C9: the cache load returns a record exactly when the persisted entry is
present, well formed (non-empty address, parseable timestamp) and strictly
younger than 24 hours; every stale, malformed or missing entry yields
`none` (the function is total, so no exception escapes). -/
theorem load_cached_ip_correct (c : CacheState) (now : Nat) (i : String) :
    load_cached_ip c now = some i ↔
      ∃ t : Nat, c = CacheState.data (some i) (some (some t)) ∧ i ≠ "" ∧
        now - t < 86400 := by
  constructor
  · intro h
    match c with
    | .noFile => simp [load_cached_ip] at h
    | .malformed => simp [load_cached_ip] at h
    | .data ip lastSeen =>
      match ip, lastSeen with
      | none, _ => simp [load_cached_ip] at h
      | some j, none => simp [load_cached_ip] at h
      | some j, some t =>
        by_cases hj : j = ""
        · simp [load_cached_ip, hj] at h
        · match t with
          | none => simp [load_cached_ip, hj] at h
          | some seen =>
            by_cases hfresh : now - seen < 86400
            · simp [load_cached_ip, hj, hfresh] at h
              exact ⟨seen, by simp [h.symm], by rw [← h]; exact hj, hfresh⟩
            · simp [load_cached_ip, hj, hfresh] at h
  · rintro ⟨t, rfl, hne, hfresh⟩
    simp [load_cached_ip, hne, hfresh]

/-- Witness for `load_cached_ip_correct`: a fresh, well-formed entry is
returned, and advancing the clock to the 24-hour boundary hides it. -/
theorem load_cached_ip_correct_witness :
    load_cached_ip (CacheState.data (some "10.0.0.9") (some (some 100))) 200 =
      some "10.0.0.9" ∧
    load_cached_ip (CacheState.data (some "10.0.0.9") (some (some 100))) 86500 =
      none := by
  constructor
  · exact (load_cached_ip_correct _ 200 _).mpr ⟨100, rfl, by decide, by decide⟩
  · by_contra h
    have h2 : ∃ i, load_cached_ip
        (CacheState.data (some "10.0.0.9") (some (some 100))) 86500 = some i := by
      cases h3 : load_cached_ip
          (CacheState.data (some "10.0.0.9") (some (some 100))) 86500 with
      | none => exact absurd h3 h
      | some i => exact ⟨i, rfl⟩
    obtain ⟨i, hi⟩ := h2
    obtain ⟨t, ht, _, hfresh⟩ := (load_cached_ip_correct _ 86500 i).mp hi
    cases ht
    omega

/-- C8: in a cycle that holds an address and in which both health checks
pass, the iteration performs exactly the two health checks and the full
30-second sleep — no scan, no probe, no cache access, no endpoint start,
no cast — and leaves the supervisor state unchanged. -/
theorem runCycle_healthy_frame (s : ManagerState) (env : CycleEnv) (ip : String)
    (hip : s.nest_hub_ip = some ip) (hweb : env.web_server_ok = true)
    (hcs : env.cast_status_ok = true) :
    runCycle s env = (s, [Event.checkWeb, Event.checkCast, Event.sleep 30]) := by
  simp [runCycle, hip, hweb, hcs]

/-- Witness for `runCycle_healthy_frame` at a concrete healthy cycle. -/
theorem runCycle_healthy_frame_witness :
    runCycle recentVerifiedState healthyEnv =
      (recentVerifiedState, [Event.checkWeb, Event.checkCast, Event.sleep 30]) :=
  runCycle_healthy_frame recentVerifiedState healthyEnv "10.0.0.9" rfl rfl rfl

/-- C3: a status snapshot whose text contains the documented
ready-phrase indicator `status_text: Application ready` (returncode 0,
local address available, no DashCast display-name line) is nevertheless
classified as not-showing-content: the source lowercases the snapshot
before searching for the capitalized phrase, so that indicator can never
match. -/
theorem check_cast_status_misses_ready_phrase :
    containsChars ("status_text: Application ready").data
      (pyStrip ("status_text: Application ready").data) = true ∧
    check_cast_status (some "10.0.0.9")
      (some { returncode := 0, stdout := "status_text: Application ready" })
      (some "192.168.1.2") = false := by
  constructor
  · decide
  · decide

/-- Helper for C6: the device loop returns the first candidate passing
the identity check. -/
theorem firstVerifiedDevice_of_first_pass (check : String → Bool) :
    ∀ (pre : List String) (y : String) (post : List String),
      (∀ z ∈ pre, check z = false) → check y = true →
      firstVerifiedDevice check (pre ++ y :: post) = some y := by
  intro pre
  induction pre with
  | nil =>
    intro y post _ hy
    simp [firstVerifiedDevice, hy]
  | cons a as ih =>
    intro y post hpre hy
    have ha : check a = false := hpre a (by simp)
    simp only [List.cons_append, firstVerifiedDevice, ha]
    exact ih y post (fun z hz => hpre z (by simp [hz])) hy

/-- Helper for C6: the device loop finds nothing when every candidate
fails the identity check. -/
theorem firstVerifiedDevice_none (check : String → Bool) :
    ∀ l : List String, (∀ z ∈ l, check z = false) →
      firstVerifiedDevice check l = none := by
  intro l
  induction l with
  | nil => intro _; rfl
  | cons a as ih =>
    intro hall
    have ha : check a = false := hall a (by simp)
    simp only [firstVerifiedDevice, ha]
    exact ih (fun z hz => hall z (by simp [hz]))

/-- C6: on a non-empty candidate list the scan returns the first
candidate (in list order) passing the CATT identity check, and when no
candidate passes it still returns the first candidate of the list rather
than `none`. -/
theorem scan_for_nest_hub_selects (check : String → Bool) (x : String)
    (rest : List String) :
    (∀ (pre : List String) (y : String) (post : List String),
      x :: rest = pre ++ y :: post → (∀ z ∈ pre, check z = false) →
      check y = true → scan_for_nest_hub (x :: rest) check = some y) ∧
    ((∀ z ∈ x :: rest, check z = false) →
      scan_for_nest_hub (x :: rest) check = some x) := by
  constructor
  · intro pre y post hsplit hpre hy
    rw [scan_for_nest_hub, hsplit,
      firstVerifiedDevice_of_first_pass check pre y post hpre hy]
    simp
  · intro hall
    rw [scan_for_nest_hub, firstVerifiedDevice_none check _ hall]
    simp

/-- Witness for `scan_for_nest_hub_selects`: on `[B, C]`, when only `C`
passes the probe the scan returns `C`, and when nothing passes it
returns `B`. -/
theorem scan_for_nest_hub_selects_witness :
    scan_for_nest_hub ["B", "C"] (fun s => s == "C") = some "C" ∧
    scan_for_nest_hub ["B", "C"] (fun _ => false) = some "B" :=
  ⟨(scan_for_nest_hub_selects (fun s => s == "C") "B" ["C"]).1
      ["B"] "C" [] rfl (by decide) (by decide),
   (scan_for_nest_hub_selects (fun _ => false) "B" ["C"]).2 (by intro z _; rfl)⟩

/-- Closed form of the event trace of the issue-handling block: a sleep
alone when no address is held, otherwise an endpoint start followed by a
cast exactly when the start succeeded, a cast is needed, and the local
address is determinable, always ending in the 30-second sleep. -/
theorem handle_issues_events_eq (s : ManagerState) (env : CycleEnv) (cs : Bool) :
    (handle_issues s env cs).2 =
      match s.nest_hub_ip with
      | none => [Event.sleep 30]
      | some ip =>
        if env.start_server_ok && (s.last_cast_time.isNone || !cs)
            && env.local_ip.isSome then
          [Event.startServer, Event.castAttempt ip, Event.sleep 30]
        else [Event.startServer, Event.sleep 30] := by
  cases hip : s.nest_hub_ip with
  | none => simp [handle_issues, hip]
  | some ip =>
    cases hss : env.start_server_ok with
    | false => simp [handle_issues, hip, hss]
    | true =>
      cases hn : (s.last_cast_time.isNone || !cs) with
      | false => simp [handle_issues, hip, hss, hn]
      | true =>
        cases hl : env.local_ip with
        | none => simp [handle_issues, cast_to_device, hip, hss, hn, hl]
        | some lip =>
          cases hc : env.cast_ok <;>
            simp [handle_issues, cast_to_device, hip, hss, hn, hl, hc]

/-- Closed form of the state change of the issue-handling block: only a
successful cast changes anything, and it only sets `last_cast_time`. -/
theorem handle_issues_state_eq (s : ManagerState) (env : CycleEnv) (cs : Bool) :
    (handle_issues s env cs).1 =
      if s.nest_hub_ip.isSome && env.start_server_ok
          && (s.last_cast_time.isNone || !cs) && env.local_ip.isSome
          && env.cast_ok then
        { s with last_cast_time := some env.now }
      else s := by
  cases hip : s.nest_hub_ip with
  | none => simp [handle_issues, hip]
  | some ip =>
    cases hss : env.start_server_ok with
    | false => simp [handle_issues, hip, hss]
    | true =>
      cases hn : (s.last_cast_time.isNone || !cs) with
      | false => simp [handle_issues, hip, hss, hn]
      | true =>
        cases hl : env.local_ip with
        | none => simp [handle_issues, cast_to_device, hip, hss, hn, hl]
        | some lip =>
          cases hc : env.cast_ok <;>
            simp [handle_issues, cast_to_device, hip, hss, hn, hl, hc]

/-- The issue-handling block always ends with the 30-second sleep. -/
theorem handle_issues_ends_sleep (s : ManagerState) (env : CycleEnv) (cs : Bool) :
    ∃ pre, (handle_issues s env cs).2 = pre ++ [Event.sleep 30] := by
  rw [handle_issues_events_eq]
  cases hip : s.nest_hub_ip with
  | none => exact ⟨[], rfl⟩
  | some ip =>
    simp only
    split
    · exact ⟨[Event.startServer, Event.castAttempt ip], rfl⟩
    · exact ⟨[Event.startServer], rfl⟩

/-- The issue-handling block performs no address verification. -/
theorem handle_issues_no_verify (s : ManagerState) (env : CycleEnv) (cs : Bool) :
    ∀ e ∈ (handle_issues s env cs).2, isVerifyEvent e = false := by
  rw [handle_issues_events_eq]
  cases hip : s.nest_hub_ip with
  | none => simp [isVerifyEvent]
  | some ip =>
    simp only
    split <;> simp [isVerifyEvent]

/-- The issue-handling block performs no cache write. -/
theorem handle_issues_no_save (s : ManagerState) (env : CycleEnv) (cs : Bool) :
    ∀ e ∈ (handle_issues s env cs).2, isSaveEvent e = false := by
  rw [handle_issues_events_eq]
  cases hip : s.nest_hub_ip with
  | none => simp [isSaveEvent]
  | some ip =>
    simp only
    split <;> simp [isSaveEvent]

/-- Exact number of cast attempts issued by the issue-handling block. -/
theorem handle_issues_casts (s : ManagerState) (env : CycleEnv) (cs : Bool) :
    countCasts (handle_issues s env cs).2 =
      if s.nest_hub_ip.isSome && env.start_server_ok
          && (s.last_cast_time.isNone || !cs) && env.local_ip.isSome then 1
      else 0 := by
  rw [countCasts, handle_issues_events_eq]
  cases hip : s.nest_hub_ip with
  | none => simp [isCastEvent]
  | some ip =>
    simp only [Option.isSome_some, Bool.true_and]
    split <;> simp_all [isCastEvent]

/-- The issue-handling block does not touch the held address or the
verification timestamp. -/
theorem handle_issues_frame (s : ManagerState) (env : CycleEnv) (cs : Bool) :
    (handle_issues s env cs).1.nest_hub_ip = s.nest_hub_ip ∧
    (handle_issues s env cs).1.last_ip_verification = s.last_ip_verification := by
  rw [handle_issues_state_eq]
  split <;> exact ⟨rfl, rfl⟩

/-- The issue-handling block changes `last_cast_time` only to record a
successful cast at the current time. -/
theorem handle_issues_cast_time (s : ManagerState) (env : CycleEnv) (cs : Bool) :
    (handle_issues s env cs).1.last_cast_time = s.last_cast_time ∨
    (env.cast_ok = true ∧
      (handle_issues s env cs).1.last_cast_time = some env.now) := by
  rw [handle_issues_state_eq]
  split
  · next h =>
    right
    refine ⟨?_, rfl⟩
    simp only [Bool.and_eq_true] at h
    exact h.2
  · left; rfl

/-- Branch enumeration for the resolution-and-action part of a cycle:
(R1) held address, re-verification due and failing — the address is
dropped and the iteration `continue`s without sleeping; (R2) held
address, re-verification due and passing; (R3) held address,
re-verification not due; (R4) no address, cached address verifies;
(R5) no address, cache misses, scan succeeds (the only branch writing
the cache); (R6) no address, cache misses, scan fails. -/
theorem resolve_and_act_spec (s : ManagerState) (env : CycleEnv) (cs : Bool) :
    (∃ ip, s.nest_hub_ip = some ip ∧ env.now - s.last_ip_verification > 600 ∧
      env.verify_ok ip = false ∧
      resolve_and_act s env cs =
        ({ s with nest_hub_ip := none }, [Event.verifyIp ip])) ∨
    (∃ ip, s.nest_hub_ip = some ip ∧ env.now - s.last_ip_verification > 600 ∧
      env.verify_ok ip = true ∧
      resolve_and_act s env cs =
        ((handle_issues { s with last_ip_verification := env.now } env cs).1,
         Event.verifyIp ip ::
           (handle_issues { s with last_ip_verification := env.now } env cs).2)) ∨
    (∃ ip, s.nest_hub_ip = some ip ∧
      ¬(env.now - s.last_ip_verification > 600) ∧
      resolve_and_act s env cs = handle_issues s env cs) ∨
    (∃ cip, s.nest_hub_ip = none ∧ env.cached_ip = some cip ∧
      env.verify_ok cip = true ∧
      resolve_and_act s env cs =
        ((handle_issues
            { s with nest_hub_ip := some cip, last_ip_verification := env.now }
            env cs).1,
         Event.loadCache :: Event.verifyIp cip ::
           (handle_issues
             { s with nest_hub_ip := some cip, last_ip_verification := env.now }
             env cs).2)) ∨
    (∃ dip, s.nest_hub_ip = none ∧ cacheMiss env = true ∧
      env.scan_result = some dip ∧
      resolve_and_act s env cs =
        ((handle_issues
            { s with nest_hub_ip := some dip, last_ip_verification := env.now }
            env cs).1,
         cacheEvents env ++ Event.scanNet :: Event.saveCache dip ::
           (handle_issues
             { s with nest_hub_ip := some dip, last_ip_verification := env.now }
             env cs).2)) ∨
    (s.nest_hub_ip = none ∧ cacheMiss env = true ∧ env.scan_result = none ∧
      resolve_and_act s env cs =
        (s, cacheEvents env ++ [Event.scanNet, Event.sleep 30])) := by
  cases hip : s.nest_hub_ip with
  | some ip =>
    by_cases hdue : env.now - s.last_ip_verification > 600
    · cases hv : env.verify_ok ip with
      | false =>
        exact Or.inl ⟨ip, rfl, hdue, hv,
          by simp [resolve_and_act, try_cached, hip, hdue, hv]⟩
      | true =>
        exact Or.inr (Or.inl ⟨ip, rfl, hdue, hv,
          by simp [resolve_and_act, try_cached, hip, hdue, hv]⟩)
    · exact Or.inr (Or.inr (Or.inl ⟨ip, rfl, hdue,
        by simp [resolve_and_act, try_cached, hip, hdue]⟩))
  | none =>
    cases hcip : env.cached_ip with
    | some cip =>
      cases hv : env.verify_ok cip with
      | true =>
        refine Or.inr (Or.inr (Or.inr (Or.inl ⟨cip, rfl, rfl, hv, ?_⟩)))
        simp [resolve_and_act, try_cached, hip, hcip, hv, Nat.sub_self]
      | false =>
        cases hscan : env.scan_result with
        | some dip =>
          refine Or.inr (Or.inr (Or.inr (Or.inr (Or.inl
            ⟨dip, rfl, by simp [cacheMiss, hcip, hv], rfl, ?_⟩))))
          simp [resolve_and_act, try_cached, cacheEvents, hip, hcip, hv, hscan]
        | none =>
          refine Or.inr (Or.inr (Or.inr (Or.inr (Or.inr
            ⟨rfl, by simp [cacheMiss, hcip, hv], rfl, ?_⟩))))
          simp [resolve_and_act, try_cached, cacheEvents, hip, hcip, hv, hscan]
    | none =>
      cases hscan : env.scan_result with
      | some dip =>
        refine Or.inr (Or.inr (Or.inr (Or.inr (Or.inl
          ⟨dip, rfl, by simp [cacheMiss, hcip], rfl, ?_⟩))))
        simp [resolve_and_act, try_cached, cacheEvents, hip, hcip, hscan]
      | none =>
        refine Or.inr (Or.inr (Or.inr (Or.inr (Or.inr
          ⟨rfl, by simp [cacheMiss, hcip], rfl, ?_⟩))))
        simp [resolve_and_act, try_cached, cacheEvents, hip, hcip, hscan]

/-- Cast attempts in a concatenated trace add up. -/
theorem countCasts_append (a b : List Event) :
    countCasts (a ++ b) = countCasts a + countCasts b := by
  simp [countCasts, List.filter_append]

/-- Cache writes in a concatenated trace add up. -/
theorem countSaves_append (a b : List Event) :
    countSaves (a ++ b) = countSaves a + countSaves b := by
  simp [countSaves, List.filter_append]

/-- A trace whose events all fail `isCastEvent` contains zero casts. -/
theorem countCasts_eq_zero (l : List Event)
    (h : ∀ e ∈ l, isCastEvent e = false) : countCasts l = 0 := by
  have : l.filter isCastEvent = [] := by
    rw [List.filter_eq_nil_iff]
    intro e he
    simp [h e he]
  simp [countCasts, this]

/-- A trace whose events all fail `isSaveEvent` contains zero cache
writes. -/
theorem countSaves_eq_zero (l : List Event)
    (h : ∀ e ∈ l, isSaveEvent e = false) : countSaves l = 0 := by
  have : l.filter isSaveEvent = [] := by
    rw [List.filter_eq_nil_iff]
    intro e he
    simp [h e he]
  simp [countSaves, this]

/-- The cache block emits only cache-read and verification events. -/
theorem cacheEvents_shape (env : CycleEnv) :
    ∀ e ∈ cacheEvents env,
      isActionEvent e = false ∧ isSaveEvent e = false ∧
      isCastEvent e = false ∧ isSleepEvent e = false := by
  unfold cacheEvents
  cases hc : env.cached_ip <;>
    simp [isActionEvent, isSaveEvent, isCastEvent, isSleepEvent]

/-- The issue-handling block issues no cast when `isCastEvent` counts
come out zero; here packaged as: every event of the block that is a cast
comes from the explicit cast slot.  Derived bound used by C4. -/
theorem handle_issues_casts_le_one (s : ManagerState) (env : CycleEnv)
    (cs : Bool) : countCasts (handle_issues s env cs).2 ≤ 1 := by
  rw [handle_issues_casts]
  split <;> simp

/-- C5: in a degraded cycle (at least one health signal false) whose
periodic re-verification is due and fails, the held address is dropped
(`nest_hub_ip` becomes `None`) and no cast attempt is issued in that
cycle. -/
theorem runCycle_verify_fail_drops_address (s : ManagerState) (env : CycleEnv)
    (ip : String) (hip : s.nest_hub_ip = some ip)
    (hdeg : env.web_server_ok = false ∨ env.cast_status_ok = false)
    (hdue : env.now - s.last_ip_verification > 600)
    (hv : env.verify_ok ip = false) :
    (runCycle s env).1.nest_hub_ip = none ∧
    countCasts (runCycle s env).2 = 0 := by
  have hwc : (env.web_server_ok && env.cast_status_ok) = false := by
    rcases hdeg with h | h <;> simp [h]
  simp only [runCycle, hip, hwc, Bool.false_eq_true, if_false]
  rcases resolve_and_act_spec s env env.cast_status_ok with
    ⟨ip', hip', _, hv', heq⟩ | ⟨ip', hip', _, hv', heq⟩ |
    ⟨ip', hip', hdue', heq⟩ | ⟨cip, hnone, _⟩ | ⟨dip, hnone, _⟩ | ⟨hnone, _⟩
  · rw [hip] at hip'
    cases hip'
    rw [heq]
    exact ⟨rfl, by simp [countCasts, isCastEvent]⟩
  · rw [hip] at hip'
    cases hip'
    rw [hv] at hv'
    cases hv'
  · exact absurd hdue hdue'
  · rw [hip] at hnone; cases hnone
  · rw [hip] at hnone; cases hnone
  · rw [hip] at hnone; cases hnone

/-- Witness for `runCycle_verify_fail_drops_address` at a concrete
degraded cycle with failing re-verification. -/
theorem runCycle_verify_fail_drops_address_witness :
    (runCycle dueState verifyFailEnv).1.nest_hub_ip = none ∧
    countCasts (runCycle dueState verifyFailEnv).2 = 0 :=
  runCycle_verify_fail_drops_address dueState verifyFailEnv "10.0.0.9" rfl
    (Or.inl rfl) (by decide) rfl

/-- C2 (amended): every iteration of the supervisor loop ends with the
bounded 30-second sleep, except the branch in which a held address fails
its due periodic re-verification — that branch drops the address and
proceeds to the next iteration without sleeping. -/
theorem runCycle_ends_sleep_unless_drop (s : ManagerState) (env : CycleEnv) :
    (∃ pre, (runCycle s env).2 = pre ++ [Event.sleep 30]) ∨
    (∃ ip, s.nest_hub_ip = some ip ∧
      (env.web_server_ok && env.cast_status_ok) = false ∧
      env.now - s.last_ip_verification > 600 ∧ env.verify_ok ip = false ∧
      (runCycle s env).1.nest_hub_ip = none ∧
      (runCycle s env).2 =
        [Event.checkWeb, Event.checkCast, Event.verifyIp ip]) := by
  cases hip : s.nest_hub_ip with
  | none =>
    simp only [runCycle, hip]
    left
    rcases resolve_and_act_spec s env true with
      ⟨ip', hip', _⟩ | ⟨ip', hip', _⟩ | ⟨ip', hip', _⟩ |
      ⟨cip, _, hcip, hv, heq⟩ | ⟨dip, _, hmiss, hscan, heq⟩ |
      ⟨_, hmiss, hscan, heq⟩
    · rw [hip] at hip'; cases hip'
    · rw [hip] at hip'; cases hip'
    · rw [hip] at hip'; cases hip'
    · obtain ⟨p, hp⟩ := handle_issues_ends_sleep
        { s with nest_hub_ip := some cip, last_ip_verification := env.now }
        env true
      exact ⟨Event.loadCache :: Event.verifyIp cip :: p, by rw [heq]; simp [hp]⟩
    · obtain ⟨p, hp⟩ := handle_issues_ends_sleep
        { s with nest_hub_ip := some dip, last_ip_verification := env.now }
        env true
      exact ⟨cacheEvents env ++ Event.scanNet :: Event.saveCache dip :: p,
        by rw [heq]; simp [hp]⟩
    · exact ⟨cacheEvents env ++ [Event.scanNet], by rw [heq]; simp⟩
  | some ip0 =>
    cases hwc : env.web_server_ok && env.cast_status_ok with
    | true =>
      left
      simp only [runCycle, hip, hwc, if_true]
      exact ⟨[Event.checkWeb, Event.checkCast], rfl⟩
    | false =>
      simp only [runCycle, hip, hwc, Bool.false_eq_true, if_false]
      rcases resolve_and_act_spec s env env.cast_status_ok with
        ⟨ip', hip', hdue, hv, heq⟩ | ⟨ip', hip', hdue, hv, heq⟩ |
        ⟨ip', hip', hdue, heq⟩ | ⟨cip, hnone, _⟩ | ⟨dip, hnone, _⟩ |
        ⟨hnone, _⟩
      · right
        rw [hip] at hip'
        exact ⟨ip', hip', trivial, hdue, hv, by rw [heq], by rw [heq]⟩
      · left
        obtain ⟨p, hp⟩ := handle_issues_ends_sleep
          { s with last_ip_verification := env.now } env env.cast_status_ok
        exact ⟨Event.checkWeb :: Event.checkCast :: Event.verifyIp ip' :: p,
          by rw [heq]; simp [hp]⟩
      · left
        obtain ⟨p, hp⟩ := handle_issues_ends_sleep s env env.cast_status_ok
        exact ⟨Event.checkWeb :: Event.checkCast :: p, by rw [heq]; simp [hp]⟩
      · rw [hip] at hnone; cases hnone
      · rw [hip] at hnone; cases hnone
      · rw [hip] at hnone; cases hnone

/-- Counterexample to C2 as stated: in the concrete degraded cycle whose
due re-verification fails, the iteration's trace contains no sleep event
at all — the loop proceeds straight to the next cycle. -/
theorem runCycle_busy_spin_counterexample :
    (runCycle dueState verifyFailEnv).2 =
      [Event.checkWeb, Event.checkCast, Event.verifyIp "10.0.0.9"] ∧
    (runCycle dueState verifyFailEnv).2.all (fun e => !isSleepEvent e) = true := by
  constructor
  · decide
  · decide

/-- C7: a cycle writes the persisted cache exactly once when its address
was resolved by a fresh network scan (no held address, cache miss, scan
success) and zero times otherwise — in particular zero times when the
address was already held or came from a cached address that re-verified;
and every written address is exactly the scan result. -/
theorem runCycle_save_iff_scan_resolution (s : ManagerState) (env : CycleEnv) :
    countSaves (runCycle s env).2 =
      (if scan_resolution s env then 1 else 0) ∧
    ∀ ip, Event.saveCache ip ∈ (runCycle s env).2 → env.scan_result = some ip := by
  cases hip : s.nest_hub_ip with
  | some ip0 =>
    have hres : scan_resolution s env = false := by
      simp [scan_resolution, hip]
    rw [hres]
    cases hwc : env.web_server_ok && env.cast_status_ok with
    | true =>
      simp only [runCycle, hip, hwc, if_true]
      constructor
      · simp [countSaves, isSaveEvent]
      · intro ip hmem
        simp at hmem
    | false =>
      simp only [runCycle, hip, hwc, Bool.false_eq_true, if_false]
      rcases resolve_and_act_spec s env env.cast_status_ok with
        ⟨ip', hip', hdue, hv, heq⟩ | ⟨ip', hip', hdue, hv, heq⟩ |
        ⟨ip', hip', hdue, heq⟩ | ⟨cip, hnone, _⟩ | ⟨dip, hnone, _⟩ | ⟨hnone, _⟩
      · rw [heq]
        constructor
        · simp [countSaves, isSaveEvent]
        · intro ip hmem
          simp at hmem
      · rw [heq]
        have hz := countSaves_eq_zero _ (handle_issues_no_save
          { s with last_ip_verification := env.now } env env.cast_status_ok)
        constructor
        · simp only [List.cons_append, List.nil_append]
          rw [show (Event.checkWeb :: Event.checkCast :: Event.verifyIp ip' ::
              (handle_issues { s with last_ip_verification := env.now } env
                env.cast_status_ok).2) =
              [Event.checkWeb, Event.checkCast, Event.verifyIp ip'] ++
              (handle_issues { s with last_ip_verification := env.now } env
                env.cast_status_ok).2 from rfl]
          rw [countSaves_append, hz]
          simp [countSaves, isSaveEvent]
        · intro ip hmem
          simp only [List.mem_cons] at hmem
          rcases hmem with h | h | h | h
          · cases h
          · cases h
          · cases h
          · have := handle_issues_no_save
              { s with last_ip_verification := env.now } env env.cast_status_ok
              _ h
            simp [isSaveEvent] at this
      · rw [heq]
        have hz := countSaves_eq_zero _
          (handle_issues_no_save s env env.cast_status_ok)
        constructor
        · rw [show (Event.checkWeb :: Event.checkCast ::
              (handle_issues s env env.cast_status_ok).2) =
              [Event.checkWeb, Event.checkCast] ++
              (handle_issues s env env.cast_status_ok).2 from rfl]
          rw [countSaves_append, hz]
          simp [countSaves, isSaveEvent]
        · intro ip hmem
          simp only [List.mem_cons] at hmem
          rcases hmem with h | h | h
          · cases h
          · cases h
          · have := handle_issues_no_save s env env.cast_status_ok _ h
            simp [isSaveEvent] at this
      · rw [hip] at hnone; cases hnone
      · rw [hip] at hnone; cases hnone
      · rw [hip] at hnone; cases hnone
  | none =>
    simp only [runCycle, hip]
    rcases resolve_and_act_spec s env true with
      ⟨ip', hip', _⟩ | ⟨ip', hip', _⟩ | ⟨ip', hip', _⟩ |
      ⟨cip, _, hcip, hv, heq⟩ | ⟨dip, _, hmiss, hscan, heq⟩ |
      ⟨_, hmiss, hscan, heq⟩
    · rw [hip] at hip'; cases hip'
    · rw [hip] at hip'; cases hip'
    · rw [hip] at hip'; cases hip'
    · have hres : scan_resolution s env = false := by
        simp [scan_resolution, cacheMiss, hcip, hv]
      rw [hres, heq]
      have hz := countSaves_eq_zero _ (handle_issues_no_save
        { s with nest_hub_ip := some cip, last_ip_verification := env.now }
        env true)
      constructor
      · rw [show (Event.loadCache :: Event.verifyIp cip ::
            (handle_issues
              { s with nest_hub_ip := some cip, last_ip_verification := env.now }
              env true).2) =
            [Event.loadCache, Event.verifyIp cip] ++
            (handle_issues
              { s with nest_hub_ip := some cip, last_ip_verification := env.now }
              env true).2 from rfl]
        rw [countSaves_append, hz]
        simp [countSaves, isSaveEvent]
      · intro ip hmem
        simp only [List.mem_cons] at hmem
        rcases hmem with h | h | h
        · cases h
        · cases h
        · have := handle_issues_no_save
            { s with nest_hub_ip := some cip, last_ip_verification := env.now }
            env true _ h
          simp [isSaveEvent] at this
    · have hres : scan_resolution s env = true := by
        simp [scan_resolution, hip, hmiss, hscan]
      rw [hres, heq]
      have hz := countSaves_eq_zero _ (handle_issues_no_save
        { s with nest_hub_ip := some dip, last_ip_verification := env.now }
        env true)
      have hcz := countSaves_eq_zero _ (fun e he =>
        (cacheEvents_shape env e he).2.1)
      constructor
      · rw [show (Event.scanNet :: Event.saveCache dip ::
            (handle_issues
              { s with nest_hub_ip := some dip, last_ip_verification := env.now }
              env true).2) =
            [Event.scanNet, Event.saveCache dip] ++
            (handle_issues
              { s with nest_hub_ip := some dip, last_ip_verification := env.now }
              env true).2 from rfl]
        rw [countSaves_append, countSaves_append, hz, hcz]
        simp [countSaves, isSaveEvent]
      · intro ip hmem
        rw [hscan]
        simp only [List.mem_append, List.mem_cons] at hmem
        rcases hmem with h | h | h | h
        · have := (cacheEvents_shape env _ h).2.1
          simp [isSaveEvent] at this
        · cases h
        · cases h
          rfl
        · have := handle_issues_no_save
            { s with nest_hub_ip := some dip, last_ip_verification := env.now }
            env true _ h
          simp [isSaveEvent] at this
    · have hres : scan_resolution s env = false := by
        simp [scan_resolution, hscan]
      rw [hres, heq]
      have hcz := countSaves_eq_zero _ (fun e he =>
        (cacheEvents_shape env e he).2.1)
      constructor
      · rw [countSaves_append, hcz]
        simp [countSaves, isSaveEvent]
      · intro ip hmem
        simp only [List.mem_append, List.mem_cons] at hmem
        rcases hmem with h | h | h
        · have := (cacheEvents_shape env _ h).2.1
          simp [isSaveEvent] at this
        · cases h
        · simp at h

/-- Witness for `runCycle_save_iff_scan_resolution`: a scan-resolved
first cycle writes the cache once and the written address is the scan
result, while a cache-resolved first cycle writes nothing. -/
theorem runCycle_save_iff_scan_resolution_witness :
    countSaves (runCycle initialState scanFindsEnv).2 = 1 ∧
    scanFindsEnv.scan_result = some "10.0.0.5" ∧
    countSaves (runCycle initialState cacheHitEnv).2 = 0 := by
  refine ⟨?_, ?_, ?_⟩
  · have h := (runCycle_save_iff_scan_resolution initialState scanFindsEnv).1
    rw [h]
    decide
  · exact (runCycle_save_iff_scan_resolution initialState scanFindsEnv).2
      "10.0.0.5" (by decide)
  · have h := (runCycle_save_iff_scan_resolution initialState cacheHitEnv).1
    rw [h]
    decide

/-- Ordering helper: in every cycle's trace, all address-verification
events precede all endpoint-start and cast events. -/
theorem runCycle_verify_before_actions (s : ManagerState) (env : CycleEnv) :
    verifyBeforeActions (runCycle s env).2 := by
  cases hip : s.nest_hub_ip with
  | some ip0 =>
    cases hwc : env.web_server_ok && env.cast_status_ok with
    | true =>
      simp only [runCycle, hip, hwc, if_true]
      exact ⟨[Event.checkWeb, Event.checkCast, Event.sleep 30], [],
        by simp, by simp [isActionEvent], by simp⟩
    | false =>
      simp only [runCycle, hip, hwc, Bool.false_eq_true, if_false]
      rcases resolve_and_act_spec s env env.cast_status_ok with
        ⟨ip', hip', _, _, heq⟩ | ⟨ip', hip', _, _, heq⟩ |
        ⟨ip', hip', _, heq⟩ | ⟨cip, hnone, _⟩ | ⟨dip, hnone, _⟩ | ⟨hnone, _⟩
      · rw [heq]
        exact ⟨[Event.checkWeb, Event.checkCast, Event.verifyIp ip'], [],
          by simp, by simp [isActionEvent], by simp⟩
      · rw [heq]
        exact ⟨[Event.checkWeb, Event.checkCast, Event.verifyIp ip'],
          (handle_issues { s with last_ip_verification := env.now } env
            env.cast_status_ok).2,
          by simp, by simp [isActionEvent],
          handle_issues_no_verify _ env env.cast_status_ok⟩
      · rw [heq]
        exact ⟨[Event.checkWeb, Event.checkCast],
          (handle_issues s env env.cast_status_ok).2,
          by simp, by simp [isActionEvent],
          handle_issues_no_verify s env env.cast_status_ok⟩
      · rw [hip] at hnone; cases hnone
      · rw [hip] at hnone; cases hnone
      · rw [hip] at hnone; cases hnone
  | none =>
    simp only [runCycle, hip]
    rcases resolve_and_act_spec s env true with
      ⟨ip', hip', _⟩ | ⟨ip', hip', _⟩ | ⟨ip', hip', _⟩ |
      ⟨cip, _, hcip, hv, heq⟩ | ⟨dip, _, hmiss, hscan, heq⟩ |
      ⟨_, hmiss, hscan, heq⟩
    · rw [hip] at hip'; cases hip'
    · rw [hip] at hip'; cases hip'
    · rw [hip] at hip'; cases hip'
    · rw [heq]
      exact ⟨[Event.loadCache, Event.verifyIp cip],
        (handle_issues
          { s with nest_hub_ip := some cip, last_ip_verification := env.now }
          env true).2,
        by simp, by simp [isActionEvent],
        handle_issues_no_verify _ env true⟩
    · rw [heq]
      refine ⟨cacheEvents env ++ [Event.scanNet, Event.saveCache dip],
        (handle_issues
          { s with nest_hub_ip := some dip, last_ip_verification := env.now }
          env true).2,
        by simp, ?_, handle_issues_no_verify _ env true⟩
      intro e he
      rcases List.mem_append.mp he with h | h
      · exact (cacheEvents_shape env e h).1
      · simp only [List.mem_cons] at h
        rcases h with h | h | h
        · rw [h]; rfl
        · rw [h]; rfl
        · simp at h
    · rw [heq]
      refine ⟨cacheEvents env ++ [Event.scanNet, Event.sleep 30], [],
        by simp, ?_, by simp⟩
      intro e he
      rcases List.mem_append.mp he with h | h
      · exact (cacheEvents_shape env e h).1
      · simp only [List.mem_cons] at h
        rcases h with h | h | h
        · rw [h]; rfl
        · rw [h]; rfl
        · simp at h

/-- C1 (amended): whenever a cycle issues a cast, either the cycle
itself stamped the verification timestamp (by a successful cached-address
verification, a successful due re-verification, or by adopting a fresh
scan result — the scan path casts without an additional liveness and
identity probe of its own), or the address was last verified at most 10
minutes (600 s) before the cycle; and within the cycle every
verification event precedes every endpoint-start and cast event. -/
theorem runCycle_cast_needs_current_or_recent_verification
    (s : ManagerState) (env : CycleEnv) (ip : String)
    (hc : Event.castAttempt ip ∈ (runCycle s env).2) :
    ((runCycle s env).1.last_ip_verification = env.now ∨
      env.now - s.last_ip_verification ≤ 600) ∧
    verifyBeforeActions (runCycle s env).2 := by
  refine ⟨?_, runCycle_verify_before_actions s env⟩
  cases hip : s.nest_hub_ip with
  | some ip0 =>
    cases hwc : env.web_server_ok && env.cast_status_ok with
    | true =>
      simp only [runCycle, hip, hwc, if_true] at hc
      simp at hc
    | false =>
      simp only [runCycle, hip, hwc, Bool.false_eq_true, if_false] at hc ⊢
      rcases resolve_and_act_spec s env env.cast_status_ok with
        ⟨ip', hip', _, _, heq⟩ | ⟨ip', hip', hdue, hv, heq⟩ |
        ⟨ip', hip', hdue, heq⟩ | ⟨cip, hnone, _⟩ | ⟨dip, hnone, _⟩ | ⟨hnone, _⟩
      · rw [heq] at hc
        simp at hc
      · rw [heq]
        exact Or.inl (handle_issues_frame
          { s with last_ip_verification := env.now } env env.cast_status_ok).2
      · exact Or.inr (by omega)
      · rw [hip] at hnone; cases hnone
      · rw [hip] at hnone; cases hnone
      · rw [hip] at hnone; cases hnone
  | none =>
    simp only [runCycle, hip] at hc ⊢
    rcases resolve_and_act_spec s env true with
      ⟨ip', hip', _⟩ | ⟨ip', hip', _⟩ | ⟨ip', hip', _⟩ |
      ⟨cip, _, hcip, hv, heq⟩ | ⟨dip, _, hmiss, hscan, heq⟩ |
      ⟨_, hmiss, hscan, heq⟩
    · rw [hip] at hip'; cases hip'
    · rw [hip] at hip'; cases hip'
    · rw [hip] at hip'; cases hip'
    · rw [heq]
      exact Or.inl (handle_issues_frame
        { s with nest_hub_ip := some cip, last_ip_verification := env.now }
        env true).2
    · rw [heq]
      exact Or.inl (handle_issues_frame
        { s with nest_hub_ip := some dip, last_ip_verification := env.now }
        env true).2
    · rw [heq] at hc
      rcases List.mem_append.mp hc with h | h
      · have := (cacheEvents_shape env _ h).2.2.1
        simp [isCastEvent] at this
      · simp at h

/-- Counterexample to C1 as stated: a concrete degraded cycle (the cast
status check fails 300 s after the last verification) issues a cast
although no verification event at all occurs in that cycle. -/
theorem runCycle_cast_without_verification_counterexample :
    (runCycle recentVerifiedState degradedRecentEnv).2.any isCastEvent = true ∧
    (runCycle recentVerifiedState degradedRecentEnv).2.all
      (fun e => !isVerifyEvent e) = true := by
  constructor
  · decide
  · decide

/-- Witness for `runCycle_cast_needs_current_or_recent_verification` at
the concrete casting cycle 300 s after the last verification. -/
theorem runCycle_cast_needs_verification_witness :
    ((runCycle recentVerifiedState degradedRecentEnv).1.last_ip_verification =
        degradedRecentEnv.now ∨
      degradedRecentEnv.now - recentVerifiedState.last_ip_verification ≤ 600) ∧
    verifyBeforeActions (runCycle recentVerifiedState degradedRecentEnv).2 :=
  runCycle_cast_needs_current_or_recent_verification recentVerifiedState
    degradedRecentEnv "10.0.0.9" (by decide)

/-- Dropping a leading non-cast event keeps the cast count. -/
theorem countCasts_cons_noncast (e : Event) (l : List Event)
    (h : isCastEvent e = false) : countCasts (e :: l) = countCasts l := by
  simp [countCasts, List.filter_cons, h]

/-- C4 (amended): every cycle issues at most one cast attempt; when the
display-health signal is false, the held address re-verifies successfully
in a due periodic check, the endpoint start succeeds and the local
address is determinable, the cycle issues exactly one cast attempt; and
`last_cast_time` changes only to record the current time of a cast whose
trigger reported success. -/
theorem runCycle_cast_count_and_timestamp (s : ManagerState) (env : CycleEnv) :
    countCasts (runCycle s env).2 ≤ 1 ∧
    (∀ ip, s.nest_hub_ip = some ip → env.cast_status_ok = false →
      env.now - s.last_ip_verification > 600 → env.verify_ok ip = true →
      env.start_server_ok = true → env.local_ip.isSome = true →
      countCasts (runCycle s env).2 = 1) ∧
    ((runCycle s env).1.last_cast_time ≠ s.last_cast_time →
      env.cast_ok = true ∧
      (runCycle s env).1.last_cast_time = some env.now) := by
  cases hip : s.nest_hub_ip with
  | some ip0 =>
    cases hwc : env.web_server_ok && env.cast_status_ok with
    | true =>
      simp only [runCycle, hip, hwc, if_true]
      refine ⟨by simp [countCasts, isCastEvent], ?_, ?_⟩
      · intro ip _ hcs _ _ _ _
        rw [hcs] at hwc
        simp at hwc
      · intro hch
        exact absurd rfl hch
    | false =>
      simp only [runCycle, hip, hwc, Bool.false_eq_true, if_false]
      rcases resolve_and_act_spec s env env.cast_status_ok with
        ⟨ip', hip', hdue, hv, heq⟩ | ⟨ip', hip', hdue, hv, heq⟩ |
        ⟨ip', hip', hdue, heq⟩ | ⟨cip, hnone, _⟩ | ⟨dip, hnone, _⟩ | ⟨hnone, _⟩
     -- R1: verification fails, address dropped, no cast
      · rw [heq]
        refine ⟨by simp [countCasts, isCastEvent], ?_, ?_⟩
        · intro ip hips _ _ hvt _ _
          rw [hip] at hip'
          cases hip'
          injection hips with hipeq
          subst hipeq
          rw [hvt] at hv
          exact Bool.noConfusion hv
        · intro hch
          simp at hch
      -- R2: verification succeeds, issue handling runs
      · rw [heq]
        have hcnt : countCasts (Event.checkWeb :: Event.checkCast ::
            Event.verifyIp ip' ::
            (handle_issues { s with last_ip_verification := env.now } env
              env.cast_status_ok).2) =
            countCasts (handle_issues
              { s with last_ip_verification := env.now } env
              env.cast_status_ok).2 := by
          rw [countCasts_cons_noncast Event.checkWeb _ rfl,
            countCasts_cons_noncast Event.checkCast _ rfl,
            countCasts_cons_noncast (Event.verifyIp ip') _ rfl]
        refine ⟨?_, ?_, ?_⟩
        · rw [hcnt]
          exact handle_issues_casts_le_one _ env env.cast_status_ok
        · intro ip hips hcs _ _ hss hl
          rw [hcnt, handle_issues_casts]
          simp [hip, hcs, hss, hl]
        · intro hch
          rcases handle_issues_cast_time
              { s with last_ip_verification := env.now } env
              env.cast_status_ok with h | ⟨hok, h⟩
          · rw [h] at hch
            exact absurd rfl hch
          · exact ⟨hok, h⟩
      -- R3: re-verification not due, issue handling runs directly
      · rw [heq]
        refine ⟨?_, ?_, ?_⟩
        · rw [countCasts_cons_noncast Event.checkWeb _ rfl,
            countCasts_cons_noncast Event.checkCast _ rfl]
          exact handle_issues_casts_le_one s env env.cast_status_ok
        · intro ip _ _ hduet _ _ _
          exact absurd hduet hdue
        · intro hch
          rcases handle_issues_cast_time s env env.cast_status_ok with
            h | ⟨hok, h⟩
          · rw [h] at hch
            exact absurd rfl hch
          · exact ⟨hok, h⟩
      · rw [hip] at hnone; cases hnone
      · rw [hip] at hnone; cases hnone
      · rw [hip] at hnone; cases hnone
  | none =>
    simp only [runCycle, hip]
    rcases resolve_and_act_spec s env true with
      ⟨ip', hip', _⟩ | ⟨ip', hip', _⟩ | ⟨ip', hip', _⟩ |
      ⟨cip, _, hcip, hv, heq⟩ | ⟨dip, _, hmiss, hscan, heq⟩ |
      ⟨_, hmiss, hscan, heq⟩
    · rw [hip] at hip'; cases hip'
    · rw [hip] at hip'; cases hip'
    · rw [hip] at hip'; cases hip'
    -- R4: cached address verified
    · rw [heq]
      refine ⟨?_, ?_, ?_⟩
      · rw [countCasts_cons_noncast Event.loadCache _ rfl,
          countCasts_cons_noncast (Event.verifyIp cip) _ rfl]
        exact handle_issues_casts_le_one _ env true
      · intro ip hips _ _ _ _ _
        cases hips
      · intro hch
        rcases handle_issues_cast_time
            { s with nest_hub_ip := some cip, last_ip_verification := env.now }
            env true with h | ⟨hok, h⟩
        · rw [h] at hch
          exact absurd rfl hch
        · exact ⟨hok, h⟩
    -- R5: scan-resolved address
    · rw [heq]
      have hcz : countCasts (cacheEvents env) = 0 :=
        countCasts_eq_zero _ (fun e he => (cacheEvents_shape env e he).2.2.1)
      refine ⟨?_, ?_, ?_⟩
      · rw [countCasts_append, hcz,
          countCasts_cons_noncast Event.scanNet _ rfl,
          countCasts_cons_noncast (Event.saveCache dip) _ rfl]
        simpa using handle_issues_casts_le_one _ env true
      · intro ip hips _ _ _ _ _
        cases hips
      · intro hch
        rcases handle_issues_cast_time
            { s with nest_hub_ip := some dip, last_ip_verification := env.now }
            env true with h | ⟨hok, h⟩
        · rw [h] at hch
          exact absurd rfl hch
        · exact ⟨hok, h⟩
    -- R6: scan failed, nothing happens
    · rw [heq]
      have hcz : countCasts (cacheEvents env) = 0 :=
        countCasts_eq_zero _ (fun e he => (cacheEvents_shape env e he).2.2.1)
      refine ⟨?_, ?_, ?_⟩
      · rw [countCasts_append, hcz]
        simp [countCasts, isCastEvent]
      · intro ip hips _ _ _ _ _
        cases hips
      · intro hch
        exact absurd rfl hch

/-- Counterexample to C4 as stated: in a concrete cycle whose display
signal is false and whose held address re-verifies successfully, no cast
attempt at all occurs, because the endpoint fails to start. -/
theorem runCycle_no_cast_on_server_failure_counterexample :
    serverFailEnv.cast_status_ok = false ∧
    serverFailEnv.verify_ok "10.0.0.9" = true ∧
    (runCycle dueState serverFailEnv).2.any isVerifyEvent = true ∧
    countCasts (runCycle dueState serverFailEnv).2 = 0 := by
  refine ⟨rfl, rfl, ?_, ?_⟩
  · decide
  · decide

/-- Witness for `runCycle_cast_count_and_timestamp` at a concrete
degraded cycle whose re-verification, endpoint start and cast all
succeed. -/
theorem runCycle_cast_count_and_timestamp_witness :
    countCasts (runCycle dueState castingEnv).2 = 1 ∧
    (castingEnv.cast_ok = true ∧
      (runCycle dueState castingEnv).1.last_cast_time =
        some castingEnv.now) :=
  ⟨(runCycle_cast_count_and_timestamp dueState castingEnv).2.1 "10.0.0.9"
      rfl rfl (by decide) rfl rfl rfl,
   (runCycle_cast_count_and_timestamp dueState castingEnv).2.2 (by decide)⟩

/-- Invariant of the nmap line loop: an address in the produced list was
either flushed from the current device (`cur`), whose missing flags are
then supplied by port / Google-MAC lines among the report-free leading
lines, or comes from a later scan-report section that contains both a
port line and a Google-MAC line before the next report line. -/
theorem parseNmapLines_mem_evidence :
    ∀ (ls : List (List Char)) (cur : Option (List Char)) (p g : Bool)
      (ipl : List Char), ipl ∈ parseNmapLines ls cur p g →
      (cur = some ipl ∧ pyTruthy cur = true ∧
        ∃ sec rest, ls = sec ++ rest ∧
          (∀ l ∈ sec, isReportLine (pyStrip l) = false) ∧
          (p = true ∨ ∃ l ∈ sec, isPortLine (pyStrip l) = true) ∧
          (g = true ∨ ∃ l ∈ sec, isMacGoogleLine (pyStrip l) = true)) ∨
      (∃ pre rl sec rest, ls = pre ++ rl :: (sec ++ rest) ∧
        isReportLine (pyStrip rl) = true ∧ reportIp (pyStrip rl) = ipl ∧
        (∀ l ∈ sec, isReportLine (pyStrip l) = false) ∧
        (∃ l ∈ sec, isPortLine (pyStrip l) = true) ∧
        (∃ l ∈ sec, isMacGoogleLine (pyStrip l) = true)) := by
  intro ls
  induction ls with
  | nil =>
    intro cur p g ipl h
    left
    simp only [parseNmapLines] at h
    cases hcond : pyTruthy cur && p && g with
    | false => rw [hcond] at h; simp at h
    | true =>
      rw [hcond] at h
      simp only [if_true, List.mem_singleton] at h
      obtain ⟨⟨htr, hp⟩, hg⟩ := by
        have := hcond
        simp only [Bool.and_eq_true] at this
        exact this
      cases hcur : cur with
      | none => rw [hcur] at htr; simp [pyTruthy] at htr
      | some x =>
        rw [hcur] at htr
        rw [hcur] at h
        simp only [Option.getD_some] at h
        subst h
        exact ⟨rfl, htr, [], [], rfl, by simp, Or.inl hp, Or.inl hg⟩
  | cons l ls ih =>
    intro cur p g ipl h
    simp only [parseNmapLines] at h
    by_cases hr : isReportLine (pyStrip l) = true
    · rw [if_pos hr] at h
      rcases List.mem_append.mp h with hfl | hrec
      · -- flushed from the current device at this report boundary
        left
        cases hcond : pyTruthy cur && p && g with
        | false => rw [hcond] at hfl; simp at hfl
        | true =>
          rw [hcond] at hfl
          simp only [if_true, List.mem_singleton] at hfl
          obtain ⟨⟨htr, hp⟩, hg⟩ := by
            have := hcond
            simp only [Bool.and_eq_true] at this
            exact this
          cases hcur : cur with
          | none => rw [hcur] at htr; simp [pyTruthy] at htr
          | some x =>
            rw [hcur] at htr
            rw [hcur] at hfl
            simp only [Option.getD_some] at hfl
            subst hfl
            exact ⟨rfl, htr, [], l :: ls, rfl, by simp, Or.inl hp, Or.inl hg⟩
      · -- comes from the sections after this report line
        rcases ih (some (reportIp (pyStrip l))) false false ipl hrec with
          ⟨hcur, _, sec, rest, hsplit, hnorep, hport, hgoog⟩ |
          ⟨pre, rl, sec, rest, hsplit, hrl, hrip, hnorep, hport, hgoog⟩
        · right
          injection hcur with hcur
          rcases hport with hfalse | hport
          · cases hfalse
          rcases hgoog with hfalse | hgoog
          · cases hfalse
          exact ⟨[], l, sec, rest, by rw [hsplit]; simp, hr, hcur, hnorep, hport,
            hgoog⟩
        · right
          exact ⟨l :: pre, rl, sec, rest, by rw [hsplit]; simp, hrl, hrip, hnorep,
            hport, hgoog⟩
    · rw [if_neg hr] at h
      rw [Bool.not_eq_true] at hr
      by_cases hpb : (pyTruthy cur && isPortLine (pyStrip l)) = true
      · rw [if_pos hpb] at h
        rcases ih cur true g ipl h with
          ⟨hcur, htr, sec, rest, hsplit, hnorep, _, hgoog⟩ |
          ⟨pre, rl, sec, rest, hsplit, hrl, hrip, hnorep, hport, hgoog⟩
        · left
          refine ⟨hcur, htr, l :: sec, rest, by rw [hsplit]; simp, ?_, ?_, ?_⟩
          · intro x hx
            rcases List.mem_cons.mp hx with hx | hx
            · rw [hx]; exact hr
            · exact hnorep x hx
          · exact Or.inr ⟨l, by simp,
              (Bool.and_eq_true _ _ |>.mp hpb).2⟩
          · rcases hgoog with hg | ⟨x, hx, hxx⟩
            · exact Or.inl hg
            · exact Or.inr ⟨x, by simp [hx], hxx⟩
        · right
          exact ⟨l :: pre, rl, sec, rest, by rw [hsplit]; simp, hrl, hrip, hnorep,
            hport, hgoog⟩
      · rw [if_neg hpb] at h
        by_cases hmb : (pyTruthy cur && isMacGoogleLine (pyStrip l)) = true
        · rw [if_pos hmb] at h
          rcases ih cur p true ipl h with
            ⟨hcur, htr, sec, rest, hsplit, hnorep, hport, _⟩ |
            ⟨pre, rl, sec, rest, hsplit, hrl, hrip, hnorep, hport, hgoog⟩
          · left
            refine ⟨hcur, htr, l :: sec, rest, by rw [hsplit]; simp, ?_, ?_, ?_⟩
            · intro x hx
              rcases List.mem_cons.mp hx with hx | hx
              · rw [hx]; exact hr
              · exact hnorep x hx
            · rcases hport with hp | ⟨x, hx, hxx⟩
              · exact Or.inl hp
              · exact Or.inr ⟨x, by simp [hx], hxx⟩
            · exact Or.inr ⟨l, by simp,
                (Bool.and_eq_true _ _ |>.mp hmb).2⟩
          · right
            exact ⟨l :: pre, rl, sec, rest, by rw [hsplit]; simp, hrl, hrip, hnorep,
              hport, hgoog⟩
        · rw [if_neg hmb] at h
          rcases ih cur p g ipl h with
            ⟨hcur, htr, sec, rest, hsplit, hnorep, hport, hgoog⟩ |
            ⟨pre, rl, sec, rest, hsplit, hrl, hrip, hnorep, hport, hgoog⟩
          · left
            refine ⟨hcur, htr, l :: sec, rest, by rw [hsplit]; simp, ?_, ?_, ?_⟩
            · intro x hx
              rcases List.mem_cons.mp hx with hx | hx
              · rw [hx]; exact hr
              · exact hnorep x hx
            · rcases hport with hp | ⟨x, hx, hxx⟩
              · exact Or.inl hp
              · exact Or.inr ⟨x, by simp [hx], hxx⟩
            · rcases hgoog with hg | ⟨x, hx, hxx⟩
              · exact Or.inl hg
              · exact Or.inr ⟨x, by simp [hx], hxx⟩
          · right
            exact ⟨l :: pre, rl, sec, rest, by rw [hsplit]; simp, hrl, hrip, hnorep,
              hport, hgoog⟩

/-- C10: an address appears in the primary scan's candidate list only if
its own scan-report section (the lines following its report line, up to
the next report line) contains both an open-cast-port line (8008/8009)
and a `MAC Address:` line naming Google; consequently a scan output with
no Google MAC line anywhere (for instance when nmap cannot report MAC
addresses) yields no candidates at all, whatever ports are open. -/
theorem parse_nmap_requires_port_and_google_mac (out : String) :
    (∀ ip : String, ip ∈ parse_nmap_for_google_devices out →
      ∃ pre rl sec rest,
        splitLinesChars out.data = pre ++ rl :: (sec ++ rest) ∧
        isReportLine (pyStrip rl) = true ∧
        reportIp (pyStrip rl) = ip.data ∧
        (∀ l ∈ sec, isReportLine (pyStrip l) = false) ∧
        (∃ l ∈ sec, isPortLine (pyStrip l) = true) ∧
        (∃ l ∈ sec, isMacGoogleLine (pyStrip l) = true)) ∧
    ((∀ l ∈ splitLinesChars out.data, isMacGoogleLine (pyStrip l) = false) →
      parse_nmap_for_google_devices out = []) := by
  constructor
  · intro ip hip
    obtain ⟨lc, hlc, hmk⟩ := List.mem_map.mp hip
    have hdata : lc = ip.data := by
      rw [← hmk]
    rw [hdata] at hlc
    rcases parseNmapLines_mem_evidence (splitLinesChars out.data) none false
        false ip.data hlc with ⟨_, htr, _⟩ | hev
    · simp [pyTruthy] at htr
    · exact hev
  · intro hno
    cases hp : parse_nmap_for_google_devices out with
    | nil => rfl
    | cons a t =>
      exfalso
      have ha : a ∈ parse_nmap_for_google_devices out := by
        rw [hp]
        simp
      obtain ⟨lc, hlc, hmk⟩ := List.mem_map.mp ha
      rcases parseNmapLines_mem_evidence (splitLinesChars out.data) none false
          false lc hlc with ⟨_, htr, _⟩ |
        ⟨pre, rl, sec, rest, hsplit, _, _, _, _, x, hx, hxx⟩
      · simp [pyTruthy] at htr
      · have hxin : x ∈ splitLinesChars out.data := by
          rw [hsplit]
          exact List.mem_append_right _ (List.mem_cons_of_mem _
            (List.mem_append_left _ hx))
        rw [hno x hxin] at hxx
        cases hxx

/-- Witness for `parse_nmap_requires_port_and_google_mac`: the concrete
Google-MAC report yields a candidate with the required section evidence,
and the concrete ports-only report yields no candidate. -/
theorem parse_nmap_requires_port_and_google_mac_witness :
    (∃ pre rl sec rest,
      splitLinesChars nmapGoogleOut.data = pre ++ rl :: (sec ++ rest) ∧
      isReportLine (pyStrip rl) = true ∧
      reportIp (pyStrip rl) = ("192.168.1.23" : String).data ∧
      (∀ l ∈ sec, isReportLine (pyStrip l) = false) ∧
      (∃ l ∈ sec, isPortLine (pyStrip l) = true) ∧
      (∃ l ∈ sec, isMacGoogleLine (pyStrip l) = true)) ∧
    parse_nmap_for_google_devices nmapNoMacOut = [] :=
  ⟨(parse_nmap_requires_port_and_google_mac nmapGoogleOut).1 "192.168.1.23"
      (by decide),
   (parse_nmap_requires_port_and_google_mac nmapNoMacOut).2 (by decide)⟩

end SmartDisplay
